import Mathlib

/-
  Verification of the river-data-api ingestion and query pipeline.

  Shallow embedding of the Rust sources:
  - `src/vaisala/models.rs` (raw data-point decoding),
  - `src/sync/worker.rs` (readings sync, sensor-type derivation, sync-state
    upserts, alarm deactivation),
  - `src/routes/cache.rs` / `src/services/cache.rs` (response-cache freshness
    protocol; the handlers call the four-argument `get_cached` that takes the
    query end time, whose body is the one in `services/cache.rs`),
  - `src/routes/readings.rs` and `src/routes/aggregates.rs` (bulk admission,
    column-oriented reshaping),
  - `src/routes/mod.rs` and `src/error.rs` (identifier resolution, HTTP
    status mapping).

  Modelling conventions:
  - timestamps (`DateTime<Utc>` / epoch seconds) are `Int`;
  - `f64` payload values are carried as `Int`: the code only copies them and
    substitutes the constant `0.0` for nulls, so the carrier type is irrelevant;
  - `Uuid` keys are `Nat` except in identifier resolution, where the textual
    form matters and a normalised (lower-case canonical hyphenated) character
    list is used;
  - Rust `i64` division `/` truncates toward zero, which is `Int.tdiv`;
  - database upserts (`ON CONFLICT ... DO UPDATE/NOTHING`) are functions from
    the optional existing row to the stored row.
-/

/-! ### Primitives shared by several components -/

/-- Rust `i64` division: truncation toward zero. -/
def rustDiv (a b : Int) : Int := a.tdiv b

/-- Smallest epoch second representable by `chrono::DateTime<Utc>`
(`DateTime::<Utc>::MIN_UTC.timestamp()`). -/
def chronoMinTs : Int := -8334601228800

/-- Largest epoch second representable by `chrono::DateTime<Utc>`
(`DateTime::<Utc>::MAX_UTC.timestamp()`). -/
def chronoMaxTs : Int := 8210266876799

/-- `chrono::DateTime::from_timestamp(ts, 0)`: `Some` exactly when the epoch
second is representable. A representable timestamp is modelled by itself. -/
def fromTimestamp (ts : Int) : Option Int :=
  if chronoMinTs ≤ ts ∧ ts ≤ chronoMaxTs then some ts else none

/-- Running maximum used both by the per-resource latest-timestamp loop in
`sync_readings` and by the SQL `MAX(time)` probe: fold one more value into an
optional maximum. Mirrors
`if latest_timestamp.is_none_or(|lt| ts > lt) { latest_timestamp = Some(ts) }`. -/
def trackLatest (acc : Option Int) (ts : Int) : Option Int :=
  match acc with
  | none => some ts
  | some lt => if lt < ts then some ts else some lt

/-! ### `src/vaisala/models.rs`: raw history points -/

/-- `RawDataPoint(f64, Option<f64>, bool)` after the wire float timestamp has
been truncated to an integer (`raw.0 as i64`); the truncation itself is a
float-to-integer cast, so the embedded struct starts from the truncated epoch. -/
structure RawDataPoint where
  timestamp : Int
  value : Option Int
  logged : Bool
deriving DecidableEq

/-- `DataPoint` as produced by `impl From<RawDataPoint> for DataPoint`. -/
structure DataPoint where
  timestamp : Int
  value : Int
  logged : Bool
deriving DecidableEq

/-- `From<RawDataPoint> for DataPoint`: null values become `0.0`. -/
def DataPoint.fromRaw (raw : RawDataPoint) : DataPoint :=
  { timestamp := raw.timestamp, value := raw.value.getD 0, logged := raw.logged }

/-! ### `src/sync/worker.rs`: readings sync -/

/-- One row of the `readings` table as built by `sync_readings`
(`readings::ActiveModel`). -/
structure ReadingsModel where
  sensorId : Nat
  time : Int
  value : Int
  logged : Option Bool
deriving DecidableEq

/-- `((epoch + 300) / 600) * 600`: round an epoch to a 600-second boundary
with Rust integer division. -/
def roundEpoch (epoch : Int) : Int := rustDiv (epoch + 300) 600 * 600

/-- Timestamp stored for one accepted point, following `sync_readings`:
`from_timestamp(ts).unwrap_or_else(Utc::now)` gives `raw_time`, the rounded
epoch is converted back with `from_timestamp(rounded).unwrap_or(raw_time)`. -/
def pointTime (now : Int) (ts : Int) : Int :=
  let rawTime := (fromTimestamp ts).getD now
  let rounded := roundEpoch rawTime
  (fromTimestamp rounded).getD rawTime

/-- The `readings::ActiveModel` pushed for one accepted data point. -/
def mkReadingRow (now : Int) (sensorId : Nat) (p : DataPoint) : ReadingsModel :=
  { sensorId := sensorId, time := pointTime now p.timestamp,
    value := p.value, logged := some p.logged }

/-- The point filter `last_timestamp.is_none_or(|lt| dp.timestamp > lt)`. -/
def acceptPoint (lastTimestamp : Option Int) (p : DataPoint) : Bool :=
  match lastTimestamp with
  | none => true
  | some lt => lt < p.timestamp

/-- What one iteration of the per-resource loop of `sync_readings` produces:
the batch of rows to insert and the latest pre-rounding timestamp. -/
structure SyncResourceResult where
  rows : List ReadingsModel
  latestTimestamp : Option Int
deriving DecidableEq

/-- Per-resource body of `sync_readings`: drop points at or before
`last_data_time`, build one `readings` row per surviving point, and track the
maximum raw (pre-rounding) timestamp. -/
def syncResource (now : Int) (sensorId : Nat) (lastTime : Option Int)
    (points : List DataPoint) : SyncResourceResult :=
  let newPoints := points.filter (acceptPoint lastTime)
  { rows := newPoints.map (mkReadingRow now sensorId),
    latestTimestamp := newPoints.foldl (fun acc p => trackLatest acc p.timestamp) none }

/-! ### `src/entity/sync_state.rs` and the sync-state upserts -/

/-- `sync_state::Model`. -/
structure SyncStateRow where
  sensorId : Nat
  lastDataTime : Option Int
  lastSyncAttempt : Option Int
  syncStatus : Option String
  errorMessage : Option String
  retryCount : Option Int
  lastFullSync : Option Int
deriving DecidableEq

/-- `update_sync_state_success`: insert, or on conflict update only
`last_data_time`, `last_sync_attempt`, `sync_status`, `error_message` and
`retry_count` (`last_full_sync` is `NotSet` and not in the update list). -/
def update_sync_state_success (now : Int) (sensorId : Nat) (latestTime : Int)
    (existing : Option SyncStateRow) : SyncStateRow :=
  match existing with
  | none =>
    { sensorId := sensorId, lastDataTime := some latestTime,
      lastSyncAttempt := some now, syncStatus := some "success",
      errorMessage := none, retryCount := some 0, lastFullSync := none }
  | some old =>
    { old with
      lastDataTime := some latestTime
      lastSyncAttempt := some now
      syncStatus := some "success"
      errorMessage := none
      retryCount := some 0 }

/-- `update_sync_state_error`: reads the prior retry count, then inserts, or on
conflict updates only `last_sync_attempt`, `sync_status`, `error_message` and
`retry_count` (`last_data_time` is excluded from the conflict update list and
`last_full_sync` is `NotSet`). -/
def update_sync_state_error (now : Int) (sensorId : Nat) (error : String)
    (existing : Option SyncStateRow) : SyncStateRow :=
  let retryCount := (existing.bind (fun s => s.retryCount)).getD 0 + 1
  match existing with
  | none =>
    { sensorId := sensorId, lastDataTime := none, lastSyncAttempt := some now,
      syncStatus := some "error", errorMessage := some error,
      retryCount := some retryCount, lastFullSync := none }
  | some old =>
    { old with
      lastSyncAttempt := some now
      syncStatus := some "error"
      errorMessage := some error
      retryCount := some retryCount }

/-! ### `derive_sensor_type` -/

/-- Rust `str::contains`: substring containment on character lists. -/
def containsStr (s k : List Char) : Bool :=
  k.isPrefixOf s ||
    (match s with
     | [] => false
     | _ :: t => containsStr t k)

/-- The keyword table of `derive_sensor_type`, in source order. -/
def sensorTypePatterns : List (String × List String) :=
  [("Depth", ["depth", "Depth"]),
   ("CDOM", ["cdom", "CDOM"]),
   ("Turbidity", ["turb", "Turb"]),
   ("Battery", ["batt", "Batt"]),
   ("DO_Temperature", ["DOdegC", "DOTdegC"]),
   ("Dissolved_O2", ["DOuM"]),
   ("Conductivity", ["Condu", "condu"]),
   ("Cond_Temperature", ["CondT"])]

/-- The nested pattern/keyword scan of `derive_sensor_type`: first pattern with
a contained keyword wins. -/
def scanPatterns (name : List Char) : List (String × List String) → Option String
  | [] => none
  | (sensorType, keywords) :: rest =>
    if keywords.any (fun kw => containsStr name kw.data) then some sensorType
    else scanPatterns name rest

/-- `derive_sensor_type`: scan the keyword table; default to the raw name. -/
def derive_sensor_type (name : String) : String :=
  (scanPatterns name.data sensorTypePatterns).getD name

/-- The keyword table exactly as the specification sentence lists it
(`depth|Depth`, `cdom|CDOM`, `turb|Turb`, `batt|Batt`, `DOdegC|DOTdegC`,
`DOuM`, `condu|Condu`, `CondT`), used to compare the spec sentence against the
source table. -/
def sensorTypePatternsSpec : List (String × List String) :=
  [("Depth", ["depth", "Depth"]),
   ("CDOM", ["cdom", "CDOM"]),
   ("Turbidity", ["turb", "Turb"]),
   ("Battery", ["batt", "Batt"]),
   ("DO_Temperature", ["DOdegC", "DOTdegC"]),
   ("Dissolved_O2", ["DOuM"]),
   ("Conductivity", ["condu", "Condu"]),
   ("Cond_Temperature", ["CondT"])]

/-- Sensor-type derivation as the specification words it. -/
def deriveSensorTypeSpec (name : String) : String :=
  (scanPatterns name.data sensorTypePatternsSpec).getD name

/-! ### `src/entity/alarms.rs` and the alarm deactivation pass of `sync_alarms` -/

/-- `alarms::Model`. `f64` (`duration_sec`) and JSON (`ack_comments`) payloads
are carried as `Int` and `String`: the code only copies them. -/
structure AlarmRow where
  id : Nat
  vaisalaAlarmId : Int
  severity : Int
  description : String
  errorText : Option String
  alarmType : Option String
  whenOn : Int
  whenOff : Option Int
  whenAck : Option Int
  whenCondition : Option Int
  durationSec : Option Int
  status : Bool
  isSystem : Bool
  serialNumber : Option String
  locationText : Option String
  zoneText : Option String
  stationId : Option Nat
  ackRequired : Bool
  ackComments : Option String
  ackActionTaken : Option String
  createdAt : Option Int
  updatedAt : Option Int
deriving DecidableEq

/-- One stored alarm as rewritten by the final loop of `sync_alarms`: a
locally-active alarm whose upstream id is not in `active_ids` gets
`status=false`, `when_off=now`, `updated_at=now`; everything else is kept.
The earlier per-resource update loop only touches alarms whose upstream id is
in the fetched set, so it never overlaps with this transition. -/
def markInactiveStep (now : Int) (activeIds : List Int) (a : AlarmRow) : AlarmRow :=
  if a.status && !(activeIds.contains a.vaisalaAlarmId) then
    { a with
      status := false
      whenOff := some now
      updatedAt := some now }
  else a

/-- The deactivation loop of `sync_alarms` over the whole local alarm table. -/
def markAlarmsInactive (now : Int) (activeIds : List Int)
    (existing : List AlarmRow) : List AlarmRow :=
  existing.map (markInactiveStep now activeIds)

/-- A concrete stored alarm (upstream id 17, active, `when_on = 100`) used to
evaluate the deactivation transition. -/
def exampleAlarm : AlarmRow :=
  { id := 9, vaisalaAlarmId := 17, severity := 2, description := "high water",
    errorText := none, alarmType := none, whenOn := 100, whenOff := none,
    whenAck := none, whenCondition := none, durationSec := some 60,
    status := true, isSystem := false, serialNumber := none,
    locationText := none, zoneText := none, stationId := some 4,
    ackRequired := false, ackComments := none, ackActionTaken := none,
    createdAt := some 90, updatedAt := some 95 }

/-! ### Response cache (`get_cached`, `get_latest_time`) -/

/-- `CachedResponse`: the cached bytes and the largest sample timestamp that
was present in the cached payload. -/
structure CachedResponse where
  data : List Nat
  maxTime : Option Int
deriving DecidableEq

/-- `get_latest_time`: `None` for an empty id set, otherwise the SQL
`MAX(time)` over the readings of the given sensors. The readings store is a
list of `(sensor_id, time)` pairs. -/
def get_latest_time (store : List (Nat × Int)) (sensorIds : List Nat) : Option Int :=
  if sensorIds.isEmpty then none
  else (store.filter (fun r => sensorIds.contains r.1)).foldl
    (fun acc r => trackLatest acc r.2) none

/-- Outcome of one cache lookup: the returned bytes (`None` = miss), whether
the entry was invalidated, and whether the freshness probe ran. -/
structure CacheLookup where
  result : Option (List Nat)
  invalidated : Bool
  probed : Bool
deriving DecidableEq

/-- The four-argument `get_cached(state, key, sensor_ids, query_end)` called
by the readings and aggregates handlers. `entry` is what the TTL cache returns
for the key (`None` once the TTL has expired or the key is absent). -/
def get_cached (store : List (Nat × Int)) (entry : Option CachedResponse)
    (sensorIds : List Nat) (queryEnd : Option Int) : CacheLookup :=
  match entry with
  | none => { result := none, invalidated := false, probed := false }
  | some cached =>
    if queryEnd.isNone then
      match get_latest_time store sensorIds, cached.maxTime with
      | some latest, some cachedMax =>
        if cachedMax < latest then
          { result := none, invalidated := true, probed := true }
        else
          { result := some cached.data, invalidated := false, probed := true }
      | _, _ => { result := some cached.data, invalidated := false, probed := true }
    else { result := some cached.data, invalidated := false, probed := false }

/-- The freshness comparison of the claim: the store maximum strictly exceeds
the entry's stored `max_time` (absent values never exceed / are never
exceeded). -/
def exceedsStored (latest stored : Option Int) : Bool :=
  match latest, stored with
  | some l, some m => m < l
  | _, _ => false

/-! ### `src/error.rs` -/

/-- `AppError`. -/
inductive AppErrorT where
  | database (msg : String)
  | badRequest (msg : String)
  | internalErr (msg : String)
  | vaisalaApi (msg : String)
  | configErr (msg : String)
  | serviceUnavailable (msg : String)
  | notFound (msg : String)
deriving DecidableEq

/-- `impl IntoResponse for AppError`: the HTTP status each variant maps to. -/
def statusCode : AppErrorT → Nat
  | .database _ => 500
  | .badRequest _ => 400
  | .internalErr _ => 500
  | .vaisalaApi _ => 502
  | .configErr _ => 500
  | .serviceUnavailable _ => 503
  | .notFound _ => 404

/-! ### `src/routes/readings.rs`: reshaping rows into the column response -/

/-- The columns of `sensors::Model` that the handlers copy into responses. -/
structure SensorRow where
  id : Nat
  name : String
  sensorType : String
  units : Option String
  stationId : Nat
deriving DecidableEq

/-- `ReadingRow`: the minimal projection fetched by the readings query. -/
structure ReadingRow where
  sensorId : Nat
  time : Int
  value : Int
deriving DecidableEq

/-- `SensorData` in the JSON readings response. -/
structure SensorData where
  id : Nat
  name : String
  sensorType : String
  units : Option String
  stationId : Nat
  station : String
  values : List (Option Int)
deriving DecidableEq

/-- Insert a timestamp into a sorted duplicate-free list. -/
def insertTime (t : Int) : List Int → List Int
  | [] => [t]
  | x :: xs =>
    if t < x then t :: x :: xs
    else if t = x then x :: xs
    else x :: insertTime t xs

/-- The sorted union of distinct timestamps (`HashSet` + `sort_unstable` in
the readings handler, `BTreeMap` keys in the aggregates handler). -/
def sortedTimes (ts : List Int) : List Int :=
  ts.foldl (fun acc t => insertTime t acc) []

/-- Value placed at one `(sensor, time)` cell: the handler writes
`values[idx] = Some(value)` for every row of that sensor in row order, so the
last row for the pair wins; a pair with no row keeps `None`. -/
def lastValueFor (rows : List ReadingRow) (sid : Nat) (t : Int) : Option Int :=
  ((rows.filter (fun r => r.sensorId == sid && r.time == t)).getLast?).map
    (fun r => r.value)

/-- The `SensorData` entry built for one sensor of the station. -/
def buildSensorData (stationName : String) (rows : List ReadingRow)
    (times : List Int) (s : SensorRow) : SensorData :=
  { id := s.id, name := s.name, sensorType := s.sensorType, units := s.units,
    stationId := s.stationId, station := stationName,
    values := times.map (lastValueFor rows s.id) }

/-- `ReadingsResponse` (`end` is a reserved word in Lean, hence `endTime`). -/
structure ReadingsResponseT where
  start : Option Int
  endTime : Option Int
  times : List Int
  sensors : List SensorData
deriving DecidableEq

/-- The reshaping steps 1-4 of `get_station_readings`: collect the sorted
distinct times and emit one aligned `SensorData` per selected sensor. -/
def buildReadingsResponse (stationName : String) (sensorsList : List SensorRow)
    (rows : List ReadingRow) : ReadingsResponseT :=
  let times := sortedTimes (rows.map (fun r => r.time))
  { start := times.head?, endTime := times.getLast?, times := times,
    sensors := sensorsList.map (buildSensorData stationName rows times) }

/-! ### `src/routes/aggregates.rs`: reshaping rollup rows -/

/-- `AggregateRow` as fetched from a continuous-aggregate view. -/
structure AggregateRow where
  bucket : Int
  sensorId : Nat
  avgValue : Option Int
  minValue : Option Int
  maxValue : Option Int
  count : Int
deriving DecidableEq

/-- `SensorAggregateData` in the JSON aggregates response. -/
structure SensorAggregateData where
  id : Nat
  name : String
  sensorType : String
  units : Option String
  stationId : Nat
  station : String
  avg : List (Option Int)
  min : List (Option Int)
  max : List (Option Int)
  count : List Int
deriving DecidableEq

/-- Aggregate cell for one `(sensor, bucket)` pair: the handler inserts every
row into a per-sensor `HashMap`, so the last row for the pair wins. -/
def lastAggFor (rows : List AggregateRow) (sid : Nat) (t : Int) : Option AggregateRow :=
  (rows.filter (fun r => r.sensorId == sid && r.bucket == t)).getLast?

/-- The `SensorAggregateData` entry built for one sensor: aligned
`avg`/`min`/`max` with `None` and `count` with `0` where the sensor has no
bucket. -/
def buildSensorAggregateData (stationName : String) (rows : List AggregateRow)
    (times : List Int) (s : SensorRow) : SensorAggregateData :=
  { id := s.id, name := s.name, sensorType := s.sensorType, units := s.units,
    stationId := s.stationId, station := stationName,
    avg := times.map (fun t => (lastAggFor rows s.id t).bind (fun a => a.avgValue)),
    min := times.map (fun t => (lastAggFor rows s.id t).bind (fun a => a.minValue)),
    max := times.map (fun t => (lastAggFor rows s.id t).bind (fun a => a.maxValue)),
    count := times.map (fun t =>
      match lastAggFor rows s.id t with
      | some a => a.count
      | none => 0) }

/-- `AggregatesResponse`. -/
structure AggregatesResponseT where
  resolution : String
  start : Int
  endTime : Int
  times : List Int
  sensors : List SensorAggregateData
deriving DecidableEq

/-- The reshaping part of `get_station_aggregates`. -/
def buildAggregatesResponse (stationName resolution : String) (qstart qend : Int)
    (sensorsList : List SensorRow) (rows : List AggregateRow) : AggregatesResponseT :=
  let times := sortedTimes (rows.map (fun r => r.bucket))
  { resolution := resolution, start := qstart, endTime := qend, times := times,
    sensors := sensorsList.map (buildSensorAggregateData stationName rows times) }

/-! ### `get_station_readings`: control flow up to the data query -/

/-- The database operations the readings handler can issue, in order. -/
inductive DbOp where
  | resolveStationQuery
  | listSensorsQuery
  | maxTimeProbe
  | readingsQuery
deriving DecidableEq

/-- Decidable equality for `AppResult` values, so that concrete runs of the
embedded handlers can be checked by evaluation. -/
instance {ε α : Type} [DecidableEq ε] [DecidableEq α] : DecidableEq (Except ε α) :=
  fun x y =>
    match x, y with
    | .ok a, .ok b =>
      match decEq a b with
      | isTrue h => isTrue (by rw [h])
      | isFalse h => isFalse (by intro hc; cases hc; exact h rfl)
    | .error a, .error b =>
      match decEq a b with
      | isTrue h => isTrue (by rw [h])
      | isFalse h => isFalse (by intro hc; cases hc; exact h rfl)
    | .ok _, .error _ => isFalse (by intro hc; cases hc)
    | .error _, .ok _ => isFalse (by intro hc; cases hc)

/-- Result of running the handler: the database operations issued and either
an error or `ok served_from_cache`. -/
structure HandlerTrace where
  dbOps : List DbOp
  outcome : Except AppErrorT Bool
deriving DecidableEq

/-- The window validation of `get_station_readings`: reject only when both
bounds are given and `end <= start`. -/
def windowInvalid (qstart qend : Option Int) : Bool :=
  match qstart, qend with
  | some s, some e => e ≤ s
  | _, _ => false

/-- `get_station_readings` up to (and including) the decision to run the bulk
data query, with its database traffic made explicit. Inputs: whether the
station identifier resolves, the query window, the format selected by
`determine_format`, the readings store and the selected sensor ids, the cache
entry under the request's key, and the number of free permits of
`BULK_SEMAPHORE`. The body follows the source order: resolve the station,
validate the window, list the sensors, consult the cache (JSON only),
`try_acquire` a bulk permit (CSV/NDJSON only, `Err` when no permit is free),
return early on an empty sensor list, then run the readings query. -/
def get_station_readings (stationFound : Bool) (qstart qend : Option Int)
    (format : String) (store : List (Nat × Int)) (sensorIds : List Nat)
    (entry : Option CachedResponse) (permits : Nat) : HandlerTrace :=
  if !stationFound then
    { dbOps := [.resolveStationQuery],
      outcome := .error (.notFound "Station not found") }
  else if windowInvalid qstart qend then
    { dbOps := [.resolveStationQuery],
      outcome := .error (.badRequest "end time must be after start time") }
  else
    let baseOps : List DbOp := [.resolveStationQuery, .listSensorsQuery]
    if format = "json" then
      let lk := get_cached store entry sensorIds qend
      let ops := baseOps ++ (if lk.probed && !sensorIds.isEmpty then [DbOp.maxTimeProbe] else [])
      match lk.result with
      | some _ => { dbOps := ops, outcome := .ok true }
      | none =>
        if sensorIds.isEmpty then { dbOps := ops, outcome := .ok false }
        else { dbOps := ops ++ [DbOp.readingsQuery], outcome := .ok false }
    else if format = "csv" ∨ format = "ndjson" then
      if permits = 0 then
        { dbOps := baseOps,
          outcome := .error (.serviceUnavailable
            "Too many concurrent bulk requests. Please try again later.") }
      else if sensorIds.isEmpty then { dbOps := baseOps, outcome := .ok false }
      else { dbOps := baseOps ++ [DbOp.readingsQuery], outcome := .ok false }
    else
      if sensorIds.isEmpty then { dbOps := baseOps, outcome := .ok false }
      else { dbOps := baseOps ++ [DbOp.readingsQuery], outcome := .ok false }

/-! ### `src/routes/mod.rs`: zone/station identifier resolution -/

/-- ASCII lower-casing, pointwise `Char.toLower`; this is what both
`Uuid::parse_str` case-folding and the SQL `LOWER(name) = LOWER($1)`
comparison reduce to for the identifiers involved. -/
def lowerChars (s : List Char) : List Char := s.map Char.toLower

/-- A lower-case hexadecimal digit. -/
def isLowerHexDigit (c : Char) : Bool :=
  ('0' ≤ c && c ≤ '9') || ('a' ≤ c && c ≤ 'f')

/-- Character admissible at position `i` of a lower-cased canonical
hyphenated UUID. -/
def uuidCharOk (i : Nat) (c : Char) : Bool :=
  if i = 8 ∨ i = 13 ∨ i = 18 ∨ i = 23 then c = '-' else isLowerHexDigit c

/-- Shape test for a lower-cased canonical hyphenated UUID
(8-4-4-4-12 hexadecimal digits). -/
def uuidShapeLower (s : List Char) : Bool :=
  s.length = 36 && (List.range 36).all (fun i => uuidCharOk i (s.getD i ' '))

/-- `id_or_name.parse::<Uuid>()`, modelled on the canonical hyphenated form:
case-insensitive, and the parsed value is represented by the lower-cased
text. -/
def parseUuidText (s : List Char) : Option (List Char) :=
  if uuidShapeLower (lowerChars s) then some (lowerChars s) else none

/-- A zone or station row as far as resolution is concerned: primary key
(stored in normalised lower-case canonical form) and name. -/
structure HierRow where
  id : List Char
  name : List Char
deriving DecidableEq

/-- A station row whose name is itself a canonical UUID-shaped string,
distinct from its primary key. -/
def uuidNamedStation : HierRow :=
  { id := "11111111-1111-1111-1111-111111111111".data,
    name := "00000000-0000-0000-0000-000000000002".data }

/-- `resolve_station`: try the identifier as a UUID primary key first; only
when it does not parse as a UUID, fall back to the case-insensitive name
lookup; unknown identifiers give `NotFound`. -/
def resolve_station (db : List HierRow) (idOrName : List Char) :
    Except AppErrorT HierRow :=
  match parseUuidText idOrName with
  | some u =>
    match db.find? (fun r => r.id == u) with
    | some r => .ok r
    | none => .error (.notFound "Station not found")
  | none =>
    match db.find? (fun r => lowerChars r.name == lowerChars idOrName) with
    | some r => .ok r
    | none => .error (.notFound "Station not found")

/-- `resolve_zone`: identical logic over the zones table. -/
def resolve_zone (db : List HierRow) (idOrName : List Char) :
    Except AppErrorT HierRow :=
  match parseUuidText idOrName with
  | some u =>
    match db.find? (fun r => r.id == u) with
    | some r => .ok r
    | none => .error (.notFound "Zone not found")
  | none =>
    match db.find? (fun r => lowerChars r.name == lowerChars idOrName) with
    | some r => .ok r
    | none => .error (.notFound "Zone not found")

/-! ### Helper lemmas -/

/-- The rounded epoch is always a multiple of 600. -/
theorem roundEpoch_emod (ts : Int) : roundEpoch ts % 600 = 0 := by
  unfold roundEpoch rustDiv
  exact Int.mul_emod_left _ 600

/-- For a non-negative epoch, rounding moves the timestamp by at most 300
seconds in either direction. -/
theorem roundEpoch_bounds (ts : Int) (h : 0 ≤ ts) :
    ts - 300 ≤ roundEpoch ts ∧ roundEpoch ts ≤ ts + 300 := by
  unfold roundEpoch rustDiv
  rw [Int.tdiv_eq_ediv (by omega) (by omega)]
  have hmodlo : 0 ≤ (ts + 300) % 600 := Int.emod_nonneg _ (by omega)
  have hmodhi : (ts + 300) % 600 < 600 := Int.emod_lt_of_pos _ (by omega)
  have hdm := Int.ediv_add_emod (ts + 300) 600
  omega

/-- On a representable non-negative epoch the stored reading time is exactly
the rounded epoch: both `from_timestamp` conversions succeed. -/
theorem pointTime_eq_roundEpoch (now ts : Int) (h0 : 0 ≤ ts)
    (h1 : ts ≤ chronoMaxTs - 300) : pointTime now ts = roundEpoch ts := by
  have hb := roundEpoch_bounds ts h0
  have hk1 : chronoMinTs ≤ ts ∧ ts ≤ chronoMaxTs := by
    simp only [chronoMinTs, chronoMaxTs] at h1 ⊢; omega
  have hk2 : chronoMinTs ≤ roundEpoch ts ∧ roundEpoch ts ≤ chronoMaxTs := by
    simp only [chronoMinTs, chronoMaxTs] at h1 ⊢; omega
  simp only [pointTime, fromTimestamp, if_pos hk1, Option.getD_some, if_pos hk2]

/-- Folding the running maximum from a present accumulator keeps it present
and never decreases it. -/
theorem trackLatest_foldl_acc_le (l : List Int) (a : Int) :
    ∃ m, l.foldl trackLatest (some a) = some m ∧ a ≤ m := by
  induction l generalizing a with
  | nil => exact ⟨a, rfl, le_refl a⟩
  | cons y ys ih =>
    simp only [List.foldl_cons, trackLatest]
    by_cases h : a < y
    · rw [if_pos h]
      obtain ⟨m, hm, hle⟩ := ih y
      exact ⟨m, hm, le_trans (le_of_lt h) hle⟩
    · rw [if_neg h]
      exact ih a

/-- Any member of the folded list is bounded by the resulting running
maximum, which is present. -/
theorem trackLatest_foldl_mem_le (l : List Int) (acc : Option Int) (x : Int)
    (hx : x ∈ l) :
    ∃ m, l.foldl trackLatest acc = some m ∧ x ≤ m := by
  induction l generalizing acc with
  | nil => cases hx
  | cons y ys ih =>
    rcases List.mem_cons.mp hx with rfl | hx2
    · have hstep : ∃ b, trackLatest acc x = some b ∧ x ≤ b := by
        cases acc with
        | none => exact ⟨x, rfl, le_refl x⟩
        | some a =>
          simp only [trackLatest]
          by_cases h : a < x
          · rw [if_pos h]; exact ⟨x, rfl, le_refl x⟩
          · rw [if_neg h]; exact ⟨a, rfl, le_of_not_lt h⟩
      obtain ⟨b, hb, hxb⟩ := hstep
      simp only [List.foldl_cons, hb]
      obtain ⟨m, hm, hbm⟩ := trackLatest_foldl_acc_le ys b
      exact ⟨m, hm, le_trans hxb hbm⟩
    · simp only [List.foldl_cons]
      exact ih (trackLatest acc y) hx2

/-- `find?` with an equality-on-key predicate returns the unique row carrying
the key when the key column has no duplicates. -/
theorem find_first_by_key {β : Type} [BEq β] [LawfulBEq β] (key : HierRow → β)
    (l : List HierRow) (v : β) (r : HierRow)
    (hnd : (l.map key).Nodup) (hr : r ∈ l) (hv : key r = v) :
    l.find? (fun x => key x == v) = some r := by
  induction l with
  | nil => cases hr
  | cons h t ih =>
    simp only [List.map_cons, List.nodup_cons] at hnd
    rcases List.mem_cons.mp hr with rfl | hmem
    · exact List.find?_cons_of_pos _ (by simp [hv])
    · have hne : key h ≠ v := by
        intro he
        exact hnd.1 (he ▸ hv ▸ List.mem_map_of_mem key hmem)
      rw [List.find?_cons_of_neg _ (by simp [hne])]
      exact ih hnd.2 hmem

/-- `parseUuidText` only looks at the lower-cased identifier. -/
theorem parseUuidText_congr (s t : List Char) (h : lowerChars s = lowerChars t) :
    parseUuidText s = parseUuidText t := by
  unfold parseUuidText
  rw [h]

/-- A `(sensor, time)` pair with no matching row yields an empty cell. -/
theorem lastValueFor_eq_none (rows : List ReadingRow) (sid : Nat) (t : Int)
    (h : ∀ r ∈ rows, ¬(r.sensorId = sid ∧ r.time = t)) :
    lastValueFor rows sid t = none := by
  unfold lastValueFor
  have hf : rows.filter (fun r => r.sensorId == sid && r.time == t) = [] := by
    rw [List.filter_eq_nil_iff]
    intro r hr
    simp only [Bool.and_eq_true, beq_iff_eq]
    exact fun hc => h r hr hc
  rw [hf]
  rfl

/-- A `(sensor, bucket)` pair with no matching rollup row yields no cell. -/
theorem lastAggFor_eq_none (rows : List AggregateRow) (sid : Nat) (t : Int)
    (h : ∀ r ∈ rows, ¬(r.sensorId = sid ∧ r.bucket = t)) :
    lastAggFor rows sid t = none := by
  unfold lastAggFor
  have hf : rows.filter (fun r => r.sensorId == sid && r.bucket == t) = [] := by
    rw [List.filter_eq_nil_iff]
    intro r hr
    simp only [Bool.and_eq_true, beq_iff_eq]
    exact fun hc => h r hr hc
  rw [hf]
  rfl

/-- One lookup of `get_cached` with no query end time, phrased through the
freshness comparison. -/
theorem get_cached_unbounded (store : List (Nat × Int)) (cached : CachedResponse)
    (sensorIds : List Nat) :
    get_cached store (some cached) sensorIds none =
      if exceedsStored (get_latest_time store sensorIds) cached.maxTime then
        { result := none, invalidated := true, probed := true }
      else { result := some cached.data, invalidated := false, probed := true } := by
  unfold get_cached exceedsStored
  cases hl : get_latest_time store sensorIds with
  | none => cases cached.maxTime <;> simp
  | some l =>
    cases hm : cached.maxTime with
    | none => simp [hm]
    | some m => by_cases hlt : m < l <;> simp [hm, hlt]

/-! ### Claim theorems -/

/-- C1 counterexample. A single accepted point with raw epoch 300 is stored
at the rounded time 600 while `last_data_time` is set to the maximum
pre-rounding epoch 300, so after this successful tick `last_data_time` is
strictly below a stored reading time, contradicting the claimed invariant
`last_data_time >= max reading time`. -/
theorem sync_readings_last_data_time_counterexample :
    (syncResource 1700000000 1 none [⟨300, 5, true⟩]).rows.map
      (fun r => r.time) = [600] ∧
    (syncResource 1700000000 1 none [⟨300, 5, true⟩]).latestTimestamp = some 300 ∧
    (update_sync_state_success 1700000100 1 300 none).lastDataTime = some 300 ∧
    ¬((600 : Int) ≤ 300) := by decide

/-- C1 amended. After a successful readings-sync tick, `last_data_time` is
the maximum pre-rounding epoch of the accepted points, and every reading time
stored in the tick is at most `last_data_time + 300` (rounding can move a
timestamp up to 300 seconds forward), for points with representable
non-negative epochs. -/
theorem sync_readings_last_data_time_bound (now nowS : Int) (sensorId : Nat)
    (lastTime : Option Int) (points : List DataPoint)
    (hr : ∀ p ∈ points, 0 ≤ p.timestamp ∧ p.timestamp ≤ chronoMaxTs - 300) :
    ∀ row ∈ (syncResource now sensorId lastTime points).rows,
      ∃ m, (syncResource now sensorId lastTime points).latestTimestamp = some m ∧
        row.time ≤ m + 300 ∧
        (∀ q ∈ points.filter (acceptPoint lastTime), q.timestamp ≤ m) ∧
        ∀ st, (update_sync_state_success nowS sensorId m st).lastDataTime = some m := by
  intro row hrow
  obtain ⟨p, hp, hpr⟩ := List.mem_map.mp hrow
  have hpl := List.mem_filter.mp hp
  obtain ⟨h0, h1⟩ := hr p hpl.1
  have hfold :
      (points.filter (acceptPoint lastTime)).foldl
        (fun acc q => trackLatest acc q.timestamp) none =
      ((points.filter (acceptPoint lastTime)).map (fun q => q.timestamp)).foldl
        trackLatest none := by
    rw [List.foldl_map]
  obtain ⟨m, hm, hle⟩ := trackLatest_foldl_mem_le
    ((points.filter (acceptPoint lastTime)).map (fun q => q.timestamp)) none
    p.timestamp (List.mem_map_of_mem _ hp)
  refine ⟨m, ?_, ?_, ?_, ?_⟩
  · show (points.filter (acceptPoint lastTime)).foldl
      (fun acc q => trackLatest acc q.timestamp) none = some m
    rw [hfold]; exact hm
  · rw [← hpr]
    have hbt := roundEpoch_bounds p.timestamp h0
    have hpt : (mkReadingRow now sensorId p).time = roundEpoch p.timestamp := by
      simp [mkReadingRow, pointTime_eq_roundEpoch now p.timestamp h0 h1]
    rw [hpt]
    omega
  · intro q hq
    obtain ⟨m2, hm2, hle2⟩ := trackLatest_foldl_mem_le
      ((points.filter (acceptPoint lastTime)).map (fun x => x.timestamp)) none
      q.timestamp (List.mem_map_of_mem _ hq)
    rw [hm2] at hm
    cases hm
    exact hle2
  · intro st
    cases st <;> rfl

/-- C1 amended, witness: one accepted point with raw epoch 1000 is stored at
1200, the recorded maximum is 1000, and 1200 is within 300 of it. -/
theorem sync_readings_last_data_time_bound_witness :
    ∃ m, (syncResource 1700000000 1 none [⟨1000, 2, true⟩]).latestTimestamp = some m ∧
      (1200 : Int) ≤ m + 300 ∧
      (∀ q ∈ ([⟨1000, 2, true⟩] : List DataPoint).filter (acceptPoint none),
        q.timestamp ≤ m) ∧
      ∀ st, (update_sync_state_success 1700000100 1 m st).lastDataTime = some m := by
  have h := sync_readings_last_data_time_bound 1700000000 1700000100 1 none
    [⟨1000, 2, true⟩] (by decide) ⟨1, 1200, 2, some true⟩ (by decide)
  obtain ⟨m, hm, hle, hq, hst⟩ := h
  exact ⟨m, hm, hle, hq, hst⟩

/-- C2. For every raw history data point the readings sync accepts (with a
representable non-negative truncated epoch), the row written to `readings` is
`(sensor, ((trunc t + 300) / 600) * 600, value-or-0.0, logged)`, and the
stored time is a multiple of 600. -/
theorem sync_readings_row_shape (now : Int) (sensorId : Nat)
    (lastTime : Option Int) (points : List DataPoint) (raw : RawDataPoint)
    (hlo : 0 ≤ raw.timestamp) (hhi : raw.timestamp ≤ chronoMaxTs - 300)
    (hacc : acceptPoint lastTime (DataPoint.fromRaw raw) = true)
    (hmem : DataPoint.fromRaw raw ∈ points) :
    ∃ row ∈ (syncResource now sensorId lastTime points).rows,
      row = { sensorId := sensorId,
              time := rustDiv (raw.timestamp + 300) 600 * 600,
              value := raw.value.getD 0,
              logged := some raw.logged } ∧
      row.time % 600 = 0 := by
  refine ⟨mkReadingRow now sensorId (DataPoint.fromRaw raw), ?_, ?_, ?_⟩
  · exact List.mem_map_of_mem _ (List.mem_filter.mpr ⟨hmem, hacc⟩)
  · have hpt := pointTime_eq_roundEpoch now raw.timestamp hlo hhi
    simp [mkReadingRow, DataPoint.fromRaw, hpt, roundEpoch]
  · have hpt := pointTime_eq_roundEpoch now raw.timestamp hlo hhi
    show pointTime now (DataPoint.fromRaw raw).timestamp % 600 = 0
    simp only [DataPoint.fromRaw] at hpt ⊢
    rw [hpt]
    exact roundEpoch_emod raw.timestamp

/-- C2 witness: the point `(1593038703.8, 0.12, true)` truncates to epoch
1593038703 and is stored at `((1593038703 + 300) / 600) * 600 = 1593039000`,
a multiple of 600. -/
theorem sync_readings_row_shape_witness :
    ∃ row ∈ (syncResource 1700000000 1 none
        [DataPoint.fromRaw ⟨1593038703, some 12, true⟩]).rows,
      row = { sensorId := 1,
              time := rustDiv (1593038703 + 300) 600 * 600,
              value := (some 12 : Option Int).getD 0,
              logged := some true } ∧
      row.time % 600 = 0 :=
  sync_readings_row_shape 1700000000 1 none
    [DataPoint.fromRaw ⟨1593038703, some 12, true⟩] ⟨1593038703, some 12, true⟩
    (by decide) (by decide) (by decide) (by decide)

/-- C3. On a lookup whose key is present and TTL-live: a bounded query
(explicit end time) is a hit with the stored bytes and no freshness probe;
an unbounded query probes `max_reading_time` over the involved sensors and
is invalidated and reported as a miss exactly when that maximum exceeds the
entry's stored `max_time`, otherwise it is a hit. -/
theorem cache_freshness_protocol (store : List (Nat × Int))
    (cached : CachedResponse) (sensorIds : List Nat) :
    (∀ e : Int, get_cached store (some cached) sensorIds (some e) =
      { result := some cached.data, invalidated := false, probed := false }) ∧
    (get_cached store (some cached) sensorIds none).probed = true ∧
    (((get_cached store (some cached) sensorIds none).result = none ∧
      (get_cached store (some cached) sensorIds none).invalidated = true) ↔
      exceedsStored (get_latest_time store sensorIds) cached.maxTime = true) ∧
    (exceedsStored (get_latest_time store sensorIds) cached.maxTime = false →
      get_cached store (some cached) sensorIds none =
        { result := some cached.data, invalidated := false, probed := true }) := by
  have hu := get_cached_unbounded store cached sensorIds
  refine ⟨fun e => rfl, ?_, ?_, ?_⟩
  · rw [hu]
    by_cases h : exceedsStored (get_latest_time store sensorIds) cached.maxTime = true
    · rw [if_pos h]
    · rw [if_neg h]
  · rw [hu]
    by_cases h : exceedsStored (get_latest_time store sensorIds) cached.maxTime = true
    · rw [if_pos h]
      simp [h]
    · rw [if_neg h]
      simp only [Bool.not_eq_true] at h
      simp [h]
  · intro h
    rw [hu, h]
    rfl

/-- C3 witness: a live entry with stored `max_time = 50`, a store whose
maximum reading time for the involved sensor is 40 (does not exceed 50), and
an unbounded query: the lookup is a hit with the stored bytes. -/
theorem cache_freshness_protocol_witness :
    get_cached [(1, 40)] (some { data := [7], maxTime := some 50 }) [1] none =
      { result := some [7], invalidated := false, probed := true } :=
  (cache_freshness_protocol [(1, 40)] { data := [7], maxTime := some 50 }
    [1]).2.2.2 (by decide)

/-- C10. An unbounded lookup that finds a TTL-live entry whose stored
`max_time` is `None` (a cached empty-data response) is always a hit with the
cached bytes and never invalidates the entry, whatever readings the store now
holds. -/
theorem cache_none_max_time_always_hit (store : List (Nat × Int))
    (sensorIds : List Nat) (data : List Nat) :
    get_cached store (some { data := data, maxTime := none }) sensorIds none =
      { result := some data, invalidated := false, probed := true } := by
  unfold get_cached
  cases hl : get_latest_time store sensorIds <;> simp [hl]

/-- C4 counterexample. With zero free bulk permits a CSV request is answered
503, but the handler has already issued database queries by then: the trace
contains the station-resolution and sensor-list queries, so the claim's
"without issuing a database query" is false. -/
theorem bulk_admission_counterexample :
    (get_station_readings true none none "csv" [] [1] none 0).outcome =
      .error (.serviceUnavailable
        "Too many concurrent bulk requests. Please try again later.") ∧
    statusCode (.serviceUnavailable
      "Too many concurrent bulk requests. Please try again later.") = 503 ∧
    (get_station_readings true none none "csv" [] [1] none 0).dbOps =
      [.resolveStationQuery, .listSensorsQuery] ∧
    (get_station_readings true none none "csv" [] [1] none 0).dbOps ≠ [] := by
  decide

/-- C4 amended. When all bulk permits are held, a CSV or NDJSON request that
resolves its station and passes window validation is answered 503 without
blocking (`try_acquire`) and without issuing the readings data query; the
station-resolution and sensor-list queries have already run by then. -/
theorem bulk_admission_rejects_without_data_query (qstart qend : Option Int)
    (format : String) (store : List (Nat × Int)) (sensorIds : List Nat)
    (entry : Option CachedResponse)
    (hfmt : format = "csv" ∨ format = "ndjson")
    (hvalid : windowInvalid qstart qend = false) :
    (get_station_readings true qstart qend format store sensorIds entry 0).outcome =
      .error (.serviceUnavailable
        "Too many concurrent bulk requests. Please try again later.") ∧
    statusCode (.serviceUnavailable
      "Too many concurrent bulk requests. Please try again later.") = 503 ∧
    (get_station_readings true qstart qend format store sensorIds entry 0).dbOps =
      [.resolveStationQuery, .listSensorsQuery] ∧
    DbOp.readingsQuery ∉
      (get_station_readings true qstart qend format store sensorIds entry 0).dbOps := by
  rcases hfmt with rfl | rfl <;>
    simp [get_station_readings, hvalid, statusCode]

/-- C4 amended, witness: an NDJSON request with no free permit is rejected
with the readings query absent from the issued database operations. -/
theorem bulk_admission_rejects_without_data_query_witness :
    DbOp.readingsQuery ∉
      (get_station_readings true none none "ndjson" [(1, 5)] [1] none 0).dbOps :=
  (bulk_admission_rejects_without_data_query none none "ndjson" [(1, 5)] [1]
    none (Or.inr rfl) (by decide)).2.2.2

/-- C5. A locally stored alarm that is active and whose upstream id is absent
from the fetched active set is transitioned by the alarms sync to
`status=false`, `when_off=now`, `updated_at=now`, with every other field — in
particular `when_on` — unchanged. -/
theorem alarm_deactivation_frame (now : Int) (activeIds : List Int)
    (a : AlarmRow) (hstatus : a.status = true)
    (habs : a.vaisalaAlarmId ∉ activeIds) :
    markInactiveStep now activeIds a =
      { a with status := false, whenOff := some now, updatedAt := some now } ∧
    (markInactiveStep now activeIds a).whenOn = a.whenOn ∧
    (markInactiveStep now activeIds a).id = a.id ∧
    (markInactiveStep now activeIds a).vaisalaAlarmId = a.vaisalaAlarmId ∧
    (markInactiveStep now activeIds a).severity = a.severity ∧
    (markInactiveStep now activeIds a).description = a.description ∧
    (markInactiveStep now activeIds a).errorText = a.errorText ∧
    (markInactiveStep now activeIds a).alarmType = a.alarmType ∧
    (markInactiveStep now activeIds a).whenAck = a.whenAck ∧
    (markInactiveStep now activeIds a).whenCondition = a.whenCondition ∧
    (markInactiveStep now activeIds a).durationSec = a.durationSec ∧
    (markInactiveStep now activeIds a).isSystem = a.isSystem ∧
    (markInactiveStep now activeIds a).serialNumber = a.serialNumber ∧
    (markInactiveStep now activeIds a).locationText = a.locationText ∧
    (markInactiveStep now activeIds a).zoneText = a.zoneText ∧
    (markInactiveStep now activeIds a).stationId = a.stationId ∧
    (markInactiveStep now activeIds a).ackRequired = a.ackRequired ∧
    (markInactiveStep now activeIds a).ackComments = a.ackComments ∧
    (markInactiveStep now activeIds a).ackActionTaken = a.ackActionTaken ∧
    (markInactiveStep now activeIds a).createdAt = a.createdAt ∧
    ∀ l, a ∈ l →
      { a with status := false, whenOff := some now, updatedAt := some now } ∈
        markAlarmsInactive now activeIds l := by
  have hc : activeIds.contains a.vaisalaAlarmId = false := by
    simpa using habs
  have h1 : markInactiveStep now activeIds a =
      { a with status := false, whenOff := some now, updatedAt := some now } := by
    unfold markInactiveStep
    rw [hstatus, hc]
    rfl
  refine ⟨h1, ?_, ?_, ?_, ?_, ?_, ?_, ?_, ?_, ?_, ?_, ?_, ?_, ?_, ?_, ?_, ?_,
    ?_, ?_, ?_, ?_⟩
  any_goals rw [h1]
  intro l hl
  exact h1 ▸ List.mem_map_of_mem _ hl

/-- C5 witness: a concrete active alarm with upstream id 17, absent from the
fetched active set, is deactivated with only the three fields changed. -/
theorem alarm_deactivation_frame_witness :
    markInactiveStep 500 [3, 4] exampleAlarm =
      { exampleAlarm with
        status := false
        whenOff := some 500
        updatedAt := some 500 } :=
  (alarm_deactivation_frame 500 [3, 4] exampleAlarm (by decide) (by decide)).1

/-- C6. The sensor type derived from a sensor name agrees with the
specification's keyword scan: the fixed order depth/Depth, cdom/CDOM,
turb/Turb, batt/Batt, DOdegC/DOTdegC, DOuM, condu/Condu, CondT with the first
match winning, and the raw name when no keyword is contained. -/
theorem derive_sensor_type_matches_spec (name : String) :
    deriveSensorTypeSpec name = derive_sensor_type name := by
  unfold deriveSensorTypeSpec derive_sensor_type
  unfold sensorTypePatterns sensorTypePatternsSpec
  simp only [scanPatterns, List.any_cons, List.any_nil, Bool.or_false]
  rw [Bool.or_comm (containsStr name.data "condu".data)
    (containsStr name.data "Condu".data)]

/-- C7 counterexample. A station whose name is itself a UUID-shaped string
cannot be resolved by that name: the identifier parses as a UUID, no row has
that primary key, and resolution answers `NotFound` even though the
identifier equals the name of an existing row case-insensitively. -/
theorem resolve_uuid_shaped_name_counterexample :
    resolve_station [uuidNamedStation]
      "00000000-0000-0000-0000-000000000002".data =
      .error (.notFound "Station not found") ∧
    lowerChars uuidNamedStation.name =
      lowerChars "00000000-0000-0000-0000-000000000002".data ∧
    statusCode (.notFound "Station not found") = 404 := by
  decide

/-- C7 amended. Zone/station resolution succeeds on an identifier that parses
as the UUID of an existing row; on an identifier that does not parse as a
UUID and equals the name of an existing row case-insensitively (a UUID-shaped
identifier is only ever looked up as a primary key); identifiers differing
only in letter case resolve identically; and an identifier matching neither a
key nor a name yields `NotFound`, reported as HTTP 404. -/
theorem resolve_identifier_semantics :
    (∀ (db : List HierRow) (s u : List Char) (r : HierRow),
      parseUuidText s = some u → (db.map (fun x => x.id)).Nodup →
      r ∈ db → r.id = u →
      resolve_station db s = .ok r ∧ resolve_zone db s = .ok r) ∧
    (∀ (db : List HierRow) (s : List Char) (r : HierRow),
      parseUuidText s = none →
      (db.map (fun x => lowerChars x.name)).Nodup →
      r ∈ db → lowerChars r.name = lowerChars s →
      resolve_station db s = .ok r ∧ resolve_zone db s = .ok r) ∧
    (∀ (db : List HierRow) (s t : List Char),
      lowerChars s = lowerChars t →
      resolve_station db s = resolve_station db t ∧
      resolve_zone db s = resolve_zone db t) ∧
    (∀ (db : List HierRow) (s : List Char),
      (∀ r ∈ db, parseUuidText s ≠ some r.id) →
      (∀ r ∈ db, lowerChars r.name ≠ lowerChars s) →
      resolve_station db s = .error (.notFound "Station not found") ∧
      resolve_zone db s = .error (.notFound "Zone not found") ∧
      statusCode (.notFound "Station not found") = 404) := by
  refine ⟨?_, ?_, ?_, ?_⟩
  · intro db s u r hp hnd hr hv
    have hf : db.find? (fun x => x.id == u) = some r :=
      find_first_by_key (fun x => x.id) db u r hnd hr hv
    constructor <;> simp only [resolve_station, resolve_zone, hp, hf]
  · intro db s r hp hnd hr hv
    have hf : db.find? (fun x => lowerChars x.name == lowerChars s) = some r :=
      find_first_by_key (fun x => lowerChars x.name) db (lowerChars s) r hnd hr hv
    constructor <;> simp only [resolve_station, resolve_zone, hp, hf]
  · intro db s t h
    have hp := parseUuidText_congr s t h
    constructor <;> simp only [resolve_station, resolve_zone, hp, h]
  · intro db s h1 h2
    cases hp : parseUuidText s with
    | some u =>
      have hf : db.find? (fun r => r.id == u) = none := by
        rw [List.find?_eq_none]
        intro x hx
        simp only [beq_iff_eq]
        intro he
        exact h1 x hx (by rw [hp, he])
      refine ⟨?_, ?_, rfl⟩ <;> simp only [resolve_station, resolve_zone, hp, hf]
    | none =>
      have hf : db.find? (fun r => lowerChars r.name == lowerChars s) = none := by
        rw [List.find?_eq_none]
        intro x hx
        simp only [beq_iff_eq]
        exact h2 x hx
      refine ⟨?_, ?_, rfl⟩ <;> simp only [resolve_station, resolve_zone, hp, hf]

/-- C7 amended, witness: the identifiers "MARTIGNY" and "Martigny" (no UUID
shape) both resolve to the stored station named "Martigny". -/
theorem resolve_identifier_semantics_witness :
    resolve_station [{ id := "ab".data, name := "Martigny".data }]
      "MARTIGNY".data =
      .ok { id := "ab".data, name := "Martigny".data } :=
  (resolve_identifier_semantics.2.1
    [{ id := "ab".data, name := "Martigny".data }] "MARTIGNY".data
    { id := "ab".data, name := "Martigny".data }
    (by decide) (by decide) (by decide) (by decide)).1

/-- C8. Every selected sensor of the station appears in the readings and
aggregates responses even with no rows in the window: its entry is present,
its per-timestamp arrays have the same length as `times`, the cells are
`None` at every index with no data, and for aggregates the `count` cell is
`0` there. -/
theorem response_includes_all_selected_sensors
    (stationName resolution : String) (qstart qend : Int)
    (sensorsList : List SensorRow) (rows : List ReadingRow)
    (aggRows : List AggregateRow) (s : SensorRow) (hs : s ∈ sensorsList) :
    (buildSensorData stationName rows
        (sortedTimes (rows.map (fun r => r.time))) s ∈
      (buildReadingsResponse stationName sensorsList rows).sensors) ∧
    ((buildSensorData stationName rows
        (sortedTimes (rows.map (fun r => r.time))) s).values.length =
      (buildReadingsResponse stationName sensorsList rows).times.length) ∧
    (∀ i : Nat, i < (buildReadingsResponse stationName sensorsList rows).times.length →
      (∀ r ∈ rows, ¬(r.sensorId = s.id ∧
        (buildReadingsResponse stationName sensorsList rows).times[i]? = some r.time)) →
      (buildSensorData stationName rows
        (sortedTimes (rows.map (fun r => r.time))) s).values[i]? = some none) ∧
    (buildSensorAggregateData stationName aggRows
        (sortedTimes (aggRows.map (fun r => r.bucket))) s ∈
      (buildAggregatesResponse stationName resolution qstart qend
        sensorsList aggRows).sensors) ∧
    ((buildSensorAggregateData stationName aggRows
        (sortedTimes (aggRows.map (fun r => r.bucket))) s).avg.length =
      (buildAggregatesResponse stationName resolution qstart qend
        sensorsList aggRows).times.length ∧
     (buildSensorAggregateData stationName aggRows
        (sortedTimes (aggRows.map (fun r => r.bucket))) s).min.length =
      (buildAggregatesResponse stationName resolution qstart qend
        sensorsList aggRows).times.length ∧
     (buildSensorAggregateData stationName aggRows
        (sortedTimes (aggRows.map (fun r => r.bucket))) s).max.length =
      (buildAggregatesResponse stationName resolution qstart qend
        sensorsList aggRows).times.length ∧
     (buildSensorAggregateData stationName aggRows
        (sortedTimes (aggRows.map (fun r => r.bucket))) s).count.length =
      (buildAggregatesResponse stationName resolution qstart qend
        sensorsList aggRows).times.length) ∧
    (∀ i : Nat, i < (buildAggregatesResponse stationName resolution qstart qend
        sensorsList aggRows).times.length →
      (∀ r ∈ aggRows, ¬(r.sensorId = s.id ∧
        (buildAggregatesResponse stationName resolution qstart qend
          sensorsList aggRows).times[i]? = some r.bucket)) →
      (buildSensorAggregateData stationName aggRows
          (sortedTimes (aggRows.map (fun r => r.bucket))) s).avg[i]? = some none ∧
      (buildSensorAggregateData stationName aggRows
          (sortedTimes (aggRows.map (fun r => r.bucket))) s).min[i]? = some none ∧
      (buildSensorAggregateData stationName aggRows
          (sortedTimes (aggRows.map (fun r => r.bucket))) s).max[i]? = some none ∧
      (buildSensorAggregateData stationName aggRows
          (sortedTimes (aggRows.map (fun r => r.bucket))) s).count[i]? = some 0) := by
  refine ⟨?_, ?_, ?_, ?_, ?_, ?_⟩
  · exact List.mem_map_of_mem _ hs
  · simp [buildSensorData, buildReadingsResponse]
  · intro i hlen hno
    have hlen2 : i < (sortedTimes (rows.map (fun r => r.time))).length := hlen
    have ht : (sortedTimes (rows.map (fun r => r.time)))[i]? =
        some (sortedTimes (rows.map (fun r => r.time)))[i] :=
      List.getElem?_eq_getElem hlen2
    show ((sortedTimes (rows.map (fun r => r.time))).map
      (lastValueFor rows s.id))[i]? = some none
    rw [List.getElem?_map, ht, Option.map_some']
    congr 1
    apply lastValueFor_eq_none
    intro r hr ⟨hsid, htime⟩
    exact hno r hr ⟨hsid, by rw [show (buildReadingsResponse stationName
      sensorsList rows).times = sortedTimes (rows.map (fun x => x.time)) from rfl,
      ht, htime]⟩
  · exact List.mem_map_of_mem _ hs
  · refine ⟨?_, ?_, ?_, ?_⟩ <;>
      simp [buildSensorAggregateData, buildAggregatesResponse]
  · intro i hlen hno
    have hlen2 : i < (sortedTimes (aggRows.map (fun r => r.bucket))).length := hlen
    have ht : (sortedTimes (aggRows.map (fun r => r.bucket)))[i]? =
        some (sortedTimes (aggRows.map (fun r => r.bucket)))[i] :=
      List.getElem?_eq_getElem hlen2
    have hagg : lastAggFor aggRows s.id
        (sortedTimes (aggRows.map (fun r => r.bucket)))[i] = none := by
      apply lastAggFor_eq_none
      intro r hr ⟨hsid, htime⟩
      exact hno r hr ⟨hsid, by rw [show (buildAggregatesResponse stationName
        resolution qstart qend sensorsList aggRows).times =
        sortedTimes (aggRows.map (fun x => x.bucket)) from rfl, ht, htime]⟩
    refine ⟨?_, ?_, ?_, ?_⟩ <;>
      simp only [buildSensorAggregateData, List.getElem?_map, ht,
        Option.map_some', hagg, Option.none_bind]

/-- C8 witness: a sensor with no rows at all still appears in the readings
response. -/
theorem response_includes_all_selected_sensors_witness :
    buildSensorData "S" []
        (sortedTimes (([] : List ReadingRow).map (fun r => r.time)))
        ⟨1, "a", "Depth", none, 2⟩ ∈
      (buildReadingsResponse "S" [⟨1, "a", "Depth", none, 2⟩] []).sensors :=
  (response_includes_all_selected_sensors "S" "hourly" 0 10
    [⟨1, "a", "Depth", none, 2⟩] [] [] ⟨1, "a", "Depth", none, 2⟩ (by decide)).1

/-- C9. For a sensor that already has a `sync_state` row, the error patch
changes only `last_sync_attempt`, `sync_status` (to "error"),
`error_message` and `retry_count` (to the prior count plus one);
`last_data_time`, `last_full_sync` and the key are unchanged. -/
theorem update_sync_state_error_frame (now : Int) (sensorId : Nat)
    (err : String) (old : SyncStateRow) :
    (update_sync_state_error now sensorId err (some old)).lastDataTime =
      old.lastDataTime ∧
    (update_sync_state_error now sensorId err (some old)).lastFullSync =
      old.lastFullSync ∧
    (update_sync_state_error now sensorId err (some old)).sensorId =
      old.sensorId ∧
    (update_sync_state_error now sensorId err (some old)).lastSyncAttempt =
      some now ∧
    (update_sync_state_error now sensorId err (some old)).syncStatus =
      some "error" ∧
    (update_sync_state_error now sensorId err (some old)).errorMessage =
      some err ∧
    (update_sync_state_error now sensorId err (some old)).retryCount =
      some (old.retryCount.getD 0 + 1) :=
  ⟨rfl, rfl, rfl, rfl, rfl, rfl, rfl⟩
